import Mathlib

/-!
# BME280 driver and LED bank: a shallow embedding

Embedding of `src/src/leds.c` and `src/src/driver_BME280.c`.

Conventions.
* C `int` is 32 bits wide.  Machine integers are `Int`/`Nat`; a conversion to a fixed-width type
  is an explicit function (`BME280_S32_t`, `uint16_t`, ...), and every 32-bit signed operation
  of the compensation formulas wraps around (two's complement).
* `x >>> k` on `Int` is the arithmetic right shift.
* A byte (`uint8_t`) is a `Fin 256`; a byte buffer is a function from index to byte.
* The `float` results `temp` and `hum` are kept as the exact rational quotient the C expression
  denotes before it is rounded to binary32; the rounding is a function of that quotient.
* The bus, the delay and the serial output are collaborators: the bus is a field of `Board`,
  and every call to a collaborator is recorded as an `Event`.
* A function whose C body has undefined behaviour on some path returns `Option`, and
  `none` marks that path.
-/

/-! ## LED bank (`leds.c`) -/

namespace Leds

/-- Constant `LED_OFFSET`. -/
def LED_OFFSET : Int := 1

/-- Constant `FIRST_BIT`. -/
def FIRST_BIT : Nat := 1

/-- Constant `ALL_LEDS_OFF`. -/
def ALL_LEDS_OFF : Nat := 0x0000

/-- Constant `ALL_LEDS_ON`. -/
def ALL_LEDS_ON : Nat := 0xFFFF

/-- Conversion of an `int` value to `uint16_t`. -/
def uint16_t (x : Int) : Nat := (x % 65536).toNat

/-- The shift amount `led - LED_OFFSET` that `led_to_mask` hands to `<<`. -/
def shift_amount (led : Int) : Int := led - LED_OFFSET

/-- `led_to_mask`: `FIRST_BIT << (led - LED_OFFSET)`, converted to `uint16_t`.
The shift of the `int` constant 1 is defined only for an amount in `0..30`; outside it the
C expression has undefined behaviour and the result is `none`. -/
def led_to_mask (led : Int) : Option Nat :=
  if 0 ≤ shift_amount led ∧ shift_amount led ≤ 30 then
    some (uint16_t ((FIRST_BIT <<< (shift_amount led).toNat : Nat) : Int))
  else
    none

/-- `leds_turn_off_all`: stores `ALL_LEDS_OFF` in the port. -/
def leds_turn_off_all (_puerto : Nat) : Nat := ALL_LEDS_OFF

/-- `leds_turn_on_all`: stores `ALL_LEDS_ON` in the port. -/
def leds_turn_on_all (_puerto : Nat) : Nat := ALL_LEDS_ON

/-- `leds_init`: the caller's word becomes the port, then `leds_turn_off_all`. -/
def leds_init (puerto : Nat) : Nat := leds_turn_off_all puerto

/-- `leds_turn_on`: `*puerto_virtual |= led_to_mask(led)` when `led` is in `1..16`. -/
def leds_turn_on (puerto : Nat) (led : Int) : Option Nat :=
  if led ≥ 1 ∧ led ≤ 16 then
    match led_to_mask led with
    | some mask => some (uint16_t ((puerto ||| mask : Nat) : Int))
    | none => none
  else
    some puerto

/-- The 32-bit pattern of `~x` for an `int` operand `x` given by its 32-bit pattern. -/
def int_not (x : Nat) : Nat := 0xFFFFFFFF ^^^ x

/-- `leds_turn_off`: `*puerto_virtual &= ~led_to_mask(led)` when `led` is in `1..16`.
Both operands are promoted to `int`; `&` and `~` act on the 32-bit patterns. -/
def leds_turn_off (puerto : Nat) (led : Int) : Option Nat :=
  if led ≥ 1 ∧ led ≤ 16 then
    match led_to_mask led with
    | some mask => some (uint16_t ((puerto &&& int_not mask : Nat) : Int))
    | none => none
  else
    some puerto

/-- `led_is_turned_on`: `check` is computed first, for every `led`; it is returned only
when `led` is in `1..16`.  On the other path control reaches the closing brace of a
non-void function without a `return`: no value is returned (`none`). -/
def led_is_turned_on (puerto : Nat) (led : Int) : Option Bool :=
  match led_to_mask led with
  | some mask =>
    let check := (puerto &&& mask) != 0
    if led ≥ 1 ∧ led ≤ 16 then some check else none
  | none => none

/-- The static pointer of `leds.c` together with the memory it points into:
`puerto_virtual` is the address the pointer holds, `word a` the 16-bit word at address `a`. -/
structure Bank where
  puerto_virtual : Nat
  word : Nat → Nat

/-- The value of `*puerto_virtual`. -/
def Bank.port (b : Bank) : Nat := b.word b.puerto_virtual

/-- The assignment `*puerto_virtual = v`. -/
def Bank.store (b : Bank) (v : Nat) : Bank :=
  { b with word := fun a => if a = b.puerto_virtual then v else b.word a }

/-- `leds_turn_off_all` acting through the pointer. -/
def Bank.leds_turn_off_all (b : Bank) : Bank := b.store (Leds.leds_turn_off_all b.port)

/-- `leds_turn_on_all` acting through the pointer. -/
def Bank.leds_turn_on_all (b : Bank) : Bank := b.store (Leds.leds_turn_on_all b.port)

/-- `leds_init (puerto)`: `puerto_virtual = puerto`, then `leds_turn_off_all ()`. -/
def Bank.leds_init (b : Bank) (puerto : Nat) : Bank :=
  Bank.leds_turn_off_all { b with puerto_virtual := puerto }

/-- `leds_turn_on` acting through the pointer. -/
def Bank.leds_turn_on (b : Bank) (led : Int) : Option Bank :=
  (Leds.leds_turn_on b.port led).map b.store

/-- `leds_turn_off` acting through the pointer. -/
def Bank.leds_turn_off (b : Bank) (led : Int) : Option Bank :=
  (Leds.leds_turn_off b.port led).map b.store

/-- `led_is_turned_on` reading through the pointer; it stores nothing. -/
def Bank.led_is_turned_on (b : Bank) (led : Int) : Option Bool :=
  Leds.led_is_turned_on b.port led

/-- The arguments of the calls to `led_to_mask` that `leds_turn_on (led)` executes: one
call, inside the range guard. -/
def leds_turn_on_mask_calls (led : Int) : List Int :=
  if led ≥ 1 ∧ led ≤ 16 then [led] else []

/-- The arguments of the calls to `led_to_mask` that `leds_turn_off (led)` executes: one
call, inside the range guard. -/
def leds_turn_off_mask_calls (led : Int) : List Int :=
  if led ≥ 1 ∧ led ≤ 16 then [led] else []

/-- The arguments of the calls to `led_to_mask` that `led_is_turned_on (led)` executes: one
call, in the initialiser of `check`, ahead of the range guard. -/
def led_is_turned_on_mask_calls (led : Int) : List Int := [led]

end Leds

/-! ## BME280 driver (`driver_BME280.c`) -/

namespace BME280

/-- A `uint8_t`. -/
abbrev Byte := Fin 256

/-- A byte array, indexed from 0. -/
abbrev Buffer := Nat → Byte

def BME280_ADDRESS : Nat := 0xEC
def TIMEOUT : Nat := 1000
def BME_HAL_DELAY : Nat := 100
def MEMADDRESSSIZE : Nat := 1
def CALIBMEMADD1 : Nat := 0x88
def CALIBMEMADD2 : Nat := 0xE1
def CALIBDATASIZE1 : Nat := 25
def CALIBDATASIZE2 : Nat := 7
def CMDWRITESIZE : Nat := 1
def RAWDATAREG1 : Nat := 0xF7
def RAWDATASIZE : Nat := 8
def CHIPIDREG : Nat := 0xD0
def RESET_REG : Nat := 0xE0
def CTRL_HUM : Nat := 0xF2
def STATUS : Nat := 0xF3
def CTRL_MEAS : Nat := 0xF4
def CONFIG_REG : Nat := 0xF5

/-- Conversion to `BME280_S32_t` (`int32_t`): two's-complement wraparound. -/
def BME280_S32_t (x : Int) : Int := (x + 2147483648) % 4294967296 - 2147483648

/-- Conversion to `BME280_U32_t` (`uint32_t`). -/
def BME280_U32_t (x : Int) : Int := x % 4294967296

/-- Conversion to `int16_t`: two's-complement wraparound. -/
def int16_t (x : Int) : Int := (x + 32768) % 65536 - 32768

/-- Conversion to `uint16_t`. -/
def uint16_t (x : Int) : Int := x % 65536

/-- 32-bit signed `+`. -/
def add32 (a b : Int) : Int := BME280_S32_t (a + b)

/-- 32-bit signed `-`. -/
def sub32 (a b : Int) : Int := BME280_S32_t (a - b)

/-- 32-bit signed `*`. -/
def mul32 (a b : Int) : Int := BME280_S32_t (a * b)

/-- 32-bit signed `<<`. -/
def shl32 (a : Int) (k : Nat) : Int := BME280_S32_t (a * 2 ^ k)

/-- 32-bit signed `>>` (arithmetic). -/
def shr32 (a : Int) (k : Nat) : Int := a >>> k

/-- The file-scope variables of `driver_BME280.c`. -/
structure Driver where
  dig_T1 : Int
  dig_P1 : Int
  dig_H1 : Int
  dig_H3 : Int
  dig_T2 : Int
  dig_T3 : Int
  dig_P2 : Int
  dig_P3 : Int
  dig_P4 : Int
  dig_P5 : Int
  dig_P6 : Int
  dig_P7 : Int
  dig_P8 : Int
  dig_P9 : Int
  dig_H2 : Int
  dig_H4 : Int
  dig_H5 : Int
  dig_H6 : Int
  tADC : Int
  hADC : Int
  t_fine : Int
  temp : Rat
  hum : Rat

/-- The 18 calibration constants of a driver state, in declaration order. -/
def Driver.calibration (s : Driver) : List Int :=
  [s.dig_T1, s.dig_P1, s.dig_H1, s.dig_H3, s.dig_T2, s.dig_T3, s.dig_P2, s.dig_P3, s.dig_P4,
   s.dig_P5, s.dig_P6, s.dig_P7, s.dig_P8, s.dig_P9, s.dig_H2, s.dig_H4, s.dig_H5, s.dig_H6]

/-- A call to a collaborator, as seen from outside the driver. -/
inductive Event where
  | i2c_Mem_Read (devAddress memAddress memAddSize size : Nat)
  | i2c_Mem_Write (devAddress memAddress memAddSize : Nat) (pData : List Byte) (size : Nat)
  | HAL_Delay (ms : Nat)
  | uartSendString (text : String)
  deriving DecidableEq, Repr

/-- What the driver is linked against and runs on.
`i2c_Mem_Read devAddress memAddress memAddSize pData size` is the bus read: given the
buffer as it is before the call it yields a status and the buffer as it is after the call.
`sprintf_report` is the text `sprintf` produces for the two readings.
The remaining fields are the bytes that the uninitialised local arrays happen to hold. -/
structure Board where
  i2c_Mem_Read : Nat → Nat → Nat → Buffer → Nat → Nat × Buffer
  sprintf_report : Rat → Rat → String
  calibData1 : Buffer
  calibData2 : Buffer
  sensorData : Buffer
  chipID : Byte

/-- The `int` value of `(hi << 8) | lo` for two bytes. -/
def pack16 (hi lo : Byte) : Int := (((hi.val <<< 8) ||| lo.val : Nat) : Int)

/-- The local `calibData1` after the bus read of `CALIBMEMADD1`. -/
def calibData1_read (hw : Board) : Buffer :=
  (hw.i2c_Mem_Read BME280_ADDRESS CALIBMEMADD1 MEMADDRESSSIZE hw.calibData1 CALIBDATASIZE1).2

/-- The local `calibData2` after the bus read of `CALIBMEMADD2`. -/
def calibData2_read (hw : Board) : Buffer :=
  (hw.i2c_Mem_Read BME280_ADDRESS CALIBMEMADD2 MEMADDRESSSIZE hw.calibData2 CALIBDATASIZE2).2

/-- `trimmingParametersRead`: two bus reads into the local arrays, then the 18 stores. -/
def trimmingParametersRead (hw : Board) (s : Driver) : Driver × List Event :=
  let calibData1 := calibData1_read hw
  let calibData2 := calibData2_read hw
  ({ s with
      dig_T1 := uint16_t (pack16 (calibData1 1) (calibData1 0))
      dig_T2 := int16_t (pack16 (calibData1 3) (calibData1 2))
      dig_T3 := int16_t (pack16 (calibData1 5) (calibData1 4))
      dig_P1 := uint16_t (pack16 (calibData1 7) (calibData1 6))
      dig_P2 := int16_t (pack16 (calibData1 9) (calibData1 8))
      dig_P3 := int16_t (pack16 (calibData1 11) (calibData1 10))
      dig_P4 := int16_t (pack16 (calibData1 13) (calibData1 12))
      dig_P5 := int16_t (pack16 (calibData1 15) (calibData1 14))
      dig_P6 := int16_t (pack16 (calibData1 17) (calibData1 16))
      dig_P7 := int16_t (pack16 (calibData1 19) (calibData1 18))
      dig_P8 := int16_t (pack16 (calibData1 21) (calibData1 20))
      dig_P9 := int16_t (pack16 (calibData1 23) (calibData1 22))
      dig_H1 := uint16_t ((calibData1 24).val : Int)
      dig_H2 := int16_t (pack16 (calibData2 1) (calibData2 0))
      dig_H3 := uint16_t ((calibData2 2).val : Int)
      dig_H4 :=
        int16_t ((((calibData2 3).val <<< 4) ||| ((calibData2 4).val &&& 0x0F) : Nat) : Int)
      dig_H5 :=
        int16_t ((((calibData2 4).val <<< 4) ||| ((calibData2 5).val >>> 4) : Nat) : Int)
      dig_H6 := int16_t ((calibData2 6).val : Int) },
   [Event.i2c_Mem_Read BME280_ADDRESS CALIBMEMADD1 MEMADDRESSSIZE CALIBDATASIZE1,
    Event.i2c_Mem_Read BME280_ADDRESS CALIBMEMADD2 MEMADDRESSSIZE CALIBDATASIZE2])

/-- `BME280_init`: calibration load, then four register writes, each followed by a delay. -/
def BME280_init (hw : Board) (s : Driver) : Driver × List Event :=
  let r := trimmingParametersRead hw s
  let resetSeq : Byte := 0xB6
  let ctrlHum : Byte := 0x01
  let ctrlMeas : Byte := 0b10100011
  let config : Byte := 0b00010000
  (r.1, r.2 ++
    [Event.i2c_Mem_Write BME280_ADDRESS RESET_REG MEMADDRESSSIZE [resetSeq] CMDWRITESIZE,
     Event.HAL_Delay BME_HAL_DELAY,
     Event.i2c_Mem_Write BME280_ADDRESS CTRL_HUM MEMADDRESSSIZE [ctrlHum] CMDWRITESIZE,
     Event.HAL_Delay BME_HAL_DELAY,
     Event.i2c_Mem_Write BME280_ADDRESS CTRL_MEAS MEMADDRESSSIZE [ctrlMeas] CMDWRITESIZE,
     Event.HAL_Delay BME_HAL_DELAY,
     Event.i2c_Mem_Write BME280_ADDRESS CONFIG_REG MEMADDRESSSIZE [config] CMDWRITESIZE,
     Event.HAL_Delay BME_HAL_DELAY])

/-- The identity byte that the local `chipID` holds after the bus read of `CHIPIDREG`. -/
def chipID_read (hw : Board) : Byte :=
  (hw.i2c_Mem_Read BME280_ADDRESS CHIPIDREG MEMADDRESSSIZE (fun _ => hw.chipID)
    MEMADDRESSSIZE).2 0

/-- The local `sensorData` after the burst read of `RAWDATAREG1`. -/
def sensorData_read (hw : Board) : Buffer :=
  (hw.i2c_Mem_Read BME280_ADDRESS RAWDATAREG1 MEMADDRESSSIZE hw.sensorData RAWDATASIZE).2

/-- `BME280_read`: returns 0 after decoding a burst, 1 when the identity byte is not 0x60. -/
def BME280_read (hw : Board) (s : Driver) : Nat × Driver × List Event :=
  let chipID := chipID_read hw
  if chipID = 0x60 then
    let sensorData := sensorData_read hw
    (0,
     { s with
        tADC := BME280_S32_t
          ((((sensorData 3).val <<< 12) ||| ((sensorData 4).val <<< 4)
            ||| ((sensorData 5).val >>> 4) : Nat) : Int)
        hADC := BME280_S32_t ((((sensorData 6).val <<< 8) ||| (sensorData 7).val : Nat) : Int) },
     [Event.i2c_Mem_Read BME280_ADDRESS CHIPIDREG MEMADDRESSSIZE MEMADDRESSSIZE,
      Event.i2c_Mem_Read BME280_ADDRESS RAWDATAREG1 MEMADDRESSSIZE RAWDATASIZE])
  else
    (1, s, [Event.i2c_Mem_Read BME280_ADDRESS CHIPIDREG MEMADDRESSSIZE MEMADDRESSSIZE])

/-- `BME280_compensate_T_int32`: returns `T` and the state with `t_fine` stored. -/
def BME280_compensate_T_int32 (s : Driver) (adc_T : Int) : Int × Driver :=
  let var1 :=
    shr32 (mul32 (sub32 (shr32 adc_T 3) (shl32 (BME280_S32_t s.dig_T1) 1))
      (BME280_S32_t s.dig_T2)) 11
  let var2 :=
    shr32 (mul32
      (shr32 (mul32 (sub32 (shr32 adc_T 4) (BME280_S32_t s.dig_T1))
        (sub32 (shr32 adc_T 4) (BME280_S32_t s.dig_T1))) 12)
      (BME280_S32_t s.dig_T3)) 14
  let t_fine := add32 var1 var2
  let T := shr32 (add32 (mul32 t_fine 5) 128) 8
  (T, { s with t_fine := t_fine })

/-- `bme280_compensate_H_int32`: reads `t_fine` and the humidity calibration. -/
def bme280_compensate_H_int32 (s : Driver) (adc_H : Int) : Int :=
  let v0 := sub32 s.t_fine (BME280_S32_t 76800)
  let v1 :=
    mul32
      (shr32 (add32 (sub32 (sub32 (shl32 adc_H 14) (shl32 (BME280_S32_t s.dig_H4) 20))
        (mul32 (BME280_S32_t s.dig_H5) v0)) (BME280_S32_t 16384)) 15)
      (shr32 (add32 (mul32
        (add32 (shr32 (mul32 (shr32 (mul32 v0 (BME280_S32_t s.dig_H6)) 10)
          (add32 (shr32 (mul32 v0 (BME280_S32_t s.dig_H3)) 11) (BME280_S32_t 32768))) 10)
          (BME280_S32_t 2097152))
        (BME280_S32_t s.dig_H2)) 8192) 14)
  let v2 :=
    sub32 v1 (shr32 (mul32 (shr32 (mul32 (shr32 v1 15) (shr32 v1 15)) 7)
      (BME280_S32_t s.dig_H1)) 4)
  let v3 := if v2 < 0 then 0 else v2
  let v4 := if v3 > 419430400 then 419430400 else v3
  BME280_U32_t (shr32 v4 12)

/-- The text of `errorMessage` in `BME280_calculate`. -/
def errorMessage : String := "Device not ready. Check device connection\r\n"

/-- `BME280_calculate`: one acquisition cycle. -/
def BME280_calculate (hw : Board) (s : Driver) : Driver × List Event :=
  let r := BME280_read hw s
  if r.1 = 0 then
    let t := BME280_compensate_T_int32 r.2.1 r.2.1.tADC
    let s1 : Driver := { t.2 with temp := (t.1 : Rat) / 100 }
    let h := bme280_compensate_H_int32 s1 s1.hADC
    ({ s1 with hum := (h : Rat) / 1024 }, r.2.2)
  else
    ({ r.2.1 with temp := 0, hum := 0 }, r.2.2 ++ [Event.uartSendString errorMessage])

/-- `BME280_getTemp`. -/
def BME280_getTemp (s : Driver) : Rat := s.temp

/-- `BME280_getHum`. -/
def BME280_getHum (s : Driver) : Rat := s.hum

/-- `BME280_uart`: formats the two readings, sends the text, waits 500 ms. -/
def BME280_uart (hw : Board) (s : Driver) : Driver × List Event :=
  (s, [Event.uartSendString (hw.sprintf_report s.temp s.hum), Event.HAL_Delay 500])

/-- Spec-side temperature formula (design section 4.4), written over unbounded integers with
an explicit 32-bit wrap after every `-`, `*`, `+`, `<<` and floor division for every `>>`:
```
var1 = ((adc_T>>3) - (dig_T1<<1)) * dig_T2 >> 11
var2 = (((adc_T>>4) - dig_T1) * ((adc_T>>4) - dig_T1) >> 12) * dig_T3 >> 14
t_fine = var1 + var2
T = (t_fine*5 + 128) >> 8
```
The result is the pair `(T, t_fine)`. -/
def T_formula (dig_T1 dig_T2 dig_T3 adc_T : Int) : Int × Int :=
  let var1 :=
    BME280_S32_t (BME280_S32_t (adc_T / 8 - BME280_S32_t (dig_T1 * 2)) * dig_T2) / 2048
  let var2 :=
    BME280_S32_t
      (BME280_S32_t
        (BME280_S32_t (adc_T / 16 - dig_T1) * BME280_S32_t (adc_T / 16 - dig_T1)) / 4096
        * dig_T3) / 16384
  let t_fine := BME280_S32_t (var1 + var2)
  (BME280_S32_t (BME280_S32_t (t_fine * 5) + 128) / 256, t_fine)

/-- A board for concrete evaluation: the sensor answers the identity read with `ident` and
the burst read with `burst`; every other read returns zero bytes. -/
def sampleBoard (ident : Byte) (burst : List Byte) : Board where
  i2c_Mem_Read := fun _ memAddress _ _ _ =>
    if memAddress = CHIPIDREG then (0, fun _ => ident)
    else if memAddress = RAWDATAREG1 then (0, fun i => burst.getD i 0)
    else (0, fun _ => 0)
  sprintf_report := fun _ _ => ""
  calibData1 := fun _ => 0
  calibData2 := fun _ => 0
  sensorData := fun _ => 0
  chipID := 0

/-- A driver state for concrete evaluation: the calibration of one device, no reading yet. -/
def sampleDriver : Driver where
  dig_T1 := 27504
  dig_P1 := 36477
  dig_H1 := 75
  dig_H3 := 0
  dig_T2 := 26435
  dig_T3 := -1000
  dig_P2 := -10685
  dig_P3 := 3024
  dig_P4 := 2855
  dig_P5 := 140
  dig_P6 := -7
  dig_P7 := 15500
  dig_P8 := -14600
  dig_P9 := 6000
  dig_H2 := 367
  dig_H4 := 301
  dig_H5 := 50
  dig_H6 := 30
  tADC := 0
  hADC := 0
  t_fine := 0
  temp := 0
  hum := 0

/-- The burst used for concrete evaluation: three pressure bytes, three temperature bytes
(raw value 519888) and two humidity bytes (raw value 30000). -/
def sampleBurst : List Byte := [0x12, 0x34, 0x56, 0x7E, 0xED, 0x0C, 0x75, 0x30]

/-- Spec-side reading of a little-endian byte pair: the unsigned 16-bit word `lo + 256*hi`. -/
def le16 (lo hi : Byte) : Int := (lo.val : Int) + 256 * (hi.val : Int)

/-- Spec-side reading of a 16-bit word as a two's-complement signed 16-bit integer. -/
def as_int16 (w : Int) : Int := if w < 32768 then w else w - 65536

/-- Spec-side reading of a byte as a two's-complement signed 8-bit integer. -/
def as_int8 (b : Byte) : Int := if b.val < 128 then (b.val : Int) else (b.val : Int) - 256

/-- A board for concrete evaluation of the calibration load: the read of `CALIBMEMADD1`
returns the bytes `block1`, the read of `CALIBMEMADD2` the bytes `block2`. -/
def calibBoard (block1 block2 : List Byte) : Board where
  i2c_Mem_Read := fun _ memAddress _ _ _ =>
    if memAddress = CALIBMEMADD1 then (0, fun i => block1.getD i 0)
    else if memAddress = CALIBMEMADD2 then (0, fun i => block2.getD i 0)
    else (0, fun _ => 0)
  sprintf_report := fun _ _ => ""
  calibData1 := fun _ => 0
  calibData2 := fun _ => 0
  sensorData := fun _ => 0
  chipID := 0

/-- A board whose bus is dead: every read reports the status 1 and leaves the buffer as it
was.  The local `chipID` happens to hold 0x60 and the local `sensorData` the bytes of
`sampleBurst`, as they would after an earlier successful cycle. -/
def deadBusBoard : Board where
  i2c_Mem_Read := fun _ _ _ pData _ => (1, pData)
  sprintf_report := fun _ _ => ""
  calibData1 := fun _ => 0
  calibData2 := fun _ => 0
  sensorData := fun i => sampleBurst.getD i 0
  chipID := 0x60

/-- Spec-side temperature formula over unbounded integers: the formula of `T_formula`
without any wrap, every `>>` a floor division by a power of two.  The result is the pair
`(T, t_fine)`. -/
def T_formula_unbounded (dig_T1 dig_T2 dig_T3 adc_T : Int) : Int × Int :=
  let var1 := (adc_T / 8 - dig_T1 * 2) * dig_T2 / 2048
  let var2 := (adc_T / 16 - dig_T1) * (adc_T / 16 - dig_T1) / 4096 * dig_T3 / 16384
  let t_fine := var1 + var2
  ((t_fine * 5 + 128) / 256, t_fine)

/-- Spec-side list of the values that the sub-expressions of the temperature formula take
over unbounded integers, in evaluation order: the operands and results of every `>>`, `<<`,
`-`, `*` and `+` of `var1`, `var2`, `t_fine` and `T`. -/
def T_intermediates (dig_T1 dig_T2 dig_T3 adc_T : Int) : List Int :=
  let d1 := adc_T / 8 - dig_T1 * 2
  let var1 := d1 * dig_T2 / 2048
  let d2 := adc_T / 16 - dig_T1
  let var2 := d2 * d2 / 4096 * dig_T3 / 16384
  let t_fine := var1 + var2
  [adc_T / 8, dig_T1 * 2, d1, d1 * dig_T2, var1,
   adc_T / 16, d2, d2 * d2, d2 * d2 / 4096, d2 * d2 / 4096 * dig_T3, var2,
   t_fine, t_fine * 5, t_fine * 5 + 128, (t_fine * 5 + 128) / 256]

end BME280

/-! ## Lemmas -/

namespace Leds

theorem uint16_t_of_lt (n : Nat) (h : n < 65536) : uint16_t (n : Int) = n := by
  unfold uint16_t
  omega

theorem one_shiftLeft_lt (n : Nat) (h : n < 16) : 1 <<< n < 2 ^ 16 := by
  rw [Nat.one_shiftLeft]
  exact Nat.pow_lt_pow_right (by decide) h

theorem led_to_mask_in_range (k : Int) (hk : 1 ≤ k ∧ k ≤ 16) :
    led_to_mask k = some (1 <<< (k - 1).toNat) := by
  obtain ⟨h1, h2⟩ := hk
  have hs : shift_amount k = k - 1 := rfl
  have hpow : 1 <<< (k - 1).toNat < 65536 := one_shiftLeft_lt _ (by omega)
  unfold led_to_mask
  rw [if_pos (by rw [hs]; omega), hs]
  simp only [FIRST_BIT]
  rw [uint16_t_of_lt _ hpow]

end Leds

namespace BME280

theorem BME280_S32_t_of_range (x : Int) (h : -2147483648 ≤ x ∧ x ≤ 2147483647) :
    BME280_S32_t x = x := by
  unfold BME280_S32_t
  omega

theorem int16_t_of_range (x : Int) (h : -32768 ≤ x ∧ x ≤ 32767) : int16_t x = x := by
  unfold int16_t
  omega

theorem shr32_eq_div (a : Int) (k : Nat) : shr32 a k = a / 2 ^ k := by
  unfold shr32
  rw [Int.shiftRight_eq_div_pow]
  norm_cast

theorem nibble_pack_lt (a b : Nat) (ha : a < 256) (hb : b < 16) : (a <<< 4) ||| b < 4096 := by
  have h1 : a <<< 4 < 2 ^ 12 := by rw [Nat.shiftLeft_eq]; omega
  have h2 : b < 2 ^ 12 := by omega
  exact Nat.or_lt_two_pow h1 h2

theorem tADC_decode_lt (d3 d4 d5 : Byte) :
    (d3.val <<< 12) ||| (d4.val <<< 4) ||| (d5.val >>> 4) < 2 ^ 20 := by
  have h3 : d3.val <<< 12 < 2 ^ 20 := by
    have := d3.isLt
    rw [Nat.shiftLeft_eq]; omega
  have h4 : d4.val <<< 4 < 2 ^ 20 := by
    have := d4.isLt
    rw [Nat.shiftLeft_eq]; omega
  have h5 : d5.val >>> 4 < 2 ^ 20 := by
    have := d5.isLt
    rw [Nat.shiftRight_eq_div_pow]; omega
  exact Nat.or_lt_two_pow (Nat.or_lt_two_pow h3 h4) h5

theorem hADC_decode_lt (d6 d7 : Byte) : (d6.val <<< 8) ||| d7.val < 2 ^ 16 := by
  have h6 : d6.val <<< 8 < 2 ^ 16 := by
    have := d6.isLt
    rw [Nat.shiftLeft_eq]; omega
  have h7 : d7.val < 2 ^ 16 := by
    have := d7.isLt
    omega
  exact Nat.or_lt_two_pow h6 h7

/-- With identity byte 0x60, `BME280_read` returns 0, stores the two decoded raw values and
issues the identity read followed by the burst read. -/
theorem BME280_read_of_ready (hw : Board) (s : Driver) (h : chipID_read hw = 0x60) :
    BME280_read hw s =
      (0,
       { s with
          tADC := ((((sensorData_read hw 3).val <<< 12) ||| ((sensorData_read hw 4).val <<< 4)
            ||| ((sensorData_read hw 5).val >>> 4) : Nat) : Int)
          hADC :=
            ((((sensorData_read hw 6).val <<< 8) ||| (sensorData_read hw 7).val : Nat) : Int) },
       [Event.i2c_Mem_Read BME280_ADDRESS CHIPIDREG MEMADDRESSSIZE MEMADDRESSSIZE,
        Event.i2c_Mem_Read BME280_ADDRESS RAWDATAREG1 MEMADDRESSSIZE RAWDATASIZE]) := by
  have ht := tADC_decode_lt (sensorData_read hw 3) (sensorData_read hw 4) (sensorData_read hw 5)
  have hh := hADC_decode_lt (sensorData_read hw 6) (sensorData_read hw 7)
  unfold BME280_read
  simp only [h, if_true]
  rw [BME280_S32_t_of_range _ (by omega), BME280_S32_t_of_range _ (by omega)]

/-- With any other identity byte, `BME280_read` returns 1, keeps the state and issues the
identity read only. -/
theorem BME280_read_of_not_ready (hw : Board) (s : Driver) (h : chipID_read hw ≠ 0x60) :
    BME280_read hw s =
      (1, s, [Event.i2c_Mem_Read BME280_ADDRESS CHIPIDREG MEMADDRESSSIZE MEMADDRESSSIZE]) := by
  unfold BME280_read
  simp only [h, if_false]

end BME280
/-! ## Claims: temperature and humidity compensation -/

namespace BME280

/-- Claim C1: for every calibration within the declared types and every `adc_T`,
`BME280_compensate_T_int32` returns the `T` of the datasheet formula evaluated in wrapping
32-bit arithmetic with floor shifts, and its only effect on the state is to store the `t_fine`
of that formula; hence two states with the same `dig_T1`, `dig_T2`, `dig_T3` give the same
`T` and the same new `t_fine`, whatever their `t_fine`, raw and current readings were. -/
theorem compensate_T_int32_formula (s : Driver) (adc_T : Int)
    (hT1 : 0 ≤ s.dig_T1 ∧ s.dig_T1 ≤ 65535)
    (hT2 : -32768 ≤ s.dig_T2 ∧ s.dig_T2 ≤ 32767)
    (hT3 : -32768 ≤ s.dig_T3 ∧ s.dig_T3 ≤ 32767) :
    BME280_compensate_T_int32 s adc_T
        = ((T_formula s.dig_T1 s.dig_T2 s.dig_T3 adc_T).1,
           { s with t_fine := (T_formula s.dig_T1 s.dig_T2 s.dig_T3 adc_T).2 })
    ∧ ∀ s2 : Driver, s2.dig_T1 = s.dig_T1 → s2.dig_T2 = s.dig_T2 → s2.dig_T3 = s.dig_T3 →
        (BME280_compensate_T_int32 s2 adc_T).1 = (BME280_compensate_T_int32 s adc_T).1
        ∧ (BME280_compensate_T_int32 s2 adc_T).2.t_fine
            = (BME280_compensate_T_int32 s adc_T).2.t_fine := by
  have e1 : BME280_S32_t s.dig_T1 = s.dig_T1 := BME280_S32_t_of_range _ (by omega)
  have e2 : BME280_S32_t s.dig_T2 = s.dig_T2 := BME280_S32_t_of_range _ (by omega)
  have e3 : BME280_S32_t s.dig_T3 = s.dig_T3 := BME280_S32_t_of_range _ (by omega)
  constructor
  · simp only [BME280_compensate_T_int32, T_formula, add32, sub32, mul32, shl32, shr32_eq_div,
      e1, e2, e3]
    norm_num
  · intro s2 h1 h2 h3
    simp only [BME280_compensate_T_int32, h1, h2, h3, and_self]

/-- Instance of `compensate_T_int32_formula` at the sample calibration and `adc_T = 415148`. -/
theorem compensate_T_int32_formula_witness :
    (0 ≤ sampleDriver.dig_T1 ∧ sampleDriver.dig_T1 ≤ 65535)
    ∧ (-32768 ≤ sampleDriver.dig_T2 ∧ sampleDriver.dig_T2 ≤ 32767)
    ∧ (-32768 ≤ sampleDriver.dig_T3 ∧ sampleDriver.dig_T3 ≤ 32767)
    ∧ BME280_compensate_T_int32 sampleDriver 415148
        = ((T_formula sampleDriver.dig_T1 sampleDriver.dig_T2 sampleDriver.dig_T3 415148).1,
           { sampleDriver with
              t_fine :=
                (T_formula sampleDriver.dig_T1 sampleDriver.dig_T2 sampleDriver.dig_T3
                  415148).2 })
    ∧ T_formula 27504 26435 (-1000) 415148 = (-786, -40245) :=
  ⟨by decide, by decide, by decide,
   (compensate_T_int32_formula sampleDriver 415148 (by decide) (by decide) (by decide)).1,
   by decide⟩

/-- Claim C2: for every driver state (calibration and `t_fine`) and every `adc_H`, the value
returned by `bme280_compensate_H_int32` lies in `[0, 102400]`, the image under `>> 12` of the
clamp interval `[0, 419430400]`, and so also in `[0, 409600]`. -/
theorem compensate_H_int32_range (s : Driver) (adc_H : Int) :
    0 ≤ bme280_compensate_H_int32 s adc_H
    ∧ bme280_compensate_H_int32 s adc_H ≤ 102400
    ∧ bme280_compensate_H_int32 s adc_H ≤ 409600
    ∧ shr32 419430400 12 = 102400 := by
  have key : 0 ≤ bme280_compensate_H_int32 s adc_H
      ∧ bme280_compensate_H_int32 s adc_H ≤ 102400 := by
    simp only [bme280_compensate_H_int32, shr32_eq_div]
    generalize sub32 _ _ = v
    split_ifs <;> simp only [BME280_U32_t] <;> omega
  refine ⟨key.1, key.2, ?_, by decide⟩
  omega

end BME280

/-! ## Claims: calibration load and acquisition -/

namespace BME280

/-- Claim C3: whatever bytes the bus read leaves in `calibData2[3..5]`,
`trimmingParametersRead` stores `dig_H4 = (b3 << 4) | (b4 & 0x0F)` and
`dig_H5 = (b4 << 4) | (b5 >> 4)`. -/
theorem trimmingParametersRead_dig_H4_H5 (hw : Board) (s : Driver) :
    (trimmingParametersRead hw s).1.dig_H4
        = ((((calibData2_read hw 3).val <<< 4) ||| ((calibData2_read hw 4).val &&& 0x0F) : Nat)
            : Int)
    ∧ (trimmingParametersRead hw s).1.dig_H5
        = ((((calibData2_read hw 4).val <<< 4) ||| ((calibData2_read hw 5).val >>> 4) : Nat)
            : Int) := by
  have h4 : (calibData2_read hw 4).val &&& 0x0F < 16 :=
    Nat.lt_of_le_of_lt Nat.and_le_right (by decide)
  have h5 : (calibData2_read hw 5).val >>> 4 < 16 := by
    rw [Nat.shiftRight_eq_div_pow]
    have := (calibData2_read hw 5).isLt
    omega
  have b4 := nibble_pack_lt _ _ (calibData2_read hw 3).isLt h4
  have b5 := nibble_pack_lt _ _ (calibData2_read hw 4).isLt h5
  constructor
  · show int16_t _ = _
    exact int16_t_of_range _ (by omega)
  · show int16_t _ = _
    exact int16_t_of_range _ (by omega)

/-- Claim C4: when the identity byte read is 0x60, `BME280_calculate` leaves in `t_fine` the
value that `BME280_compensate_T_int32` computes from the raw temperature just stored by
`BME280_read`, sets `temp` to that call's result over 100, and sets `hum` to
`bme280_compensate_H_int32` of the raw humidity just stored, evaluated with that new `t_fine`,
over 1024; the whole outcome is the same for every value `t_fine` held before the call. -/
theorem BME280_calculate_temperature_then_humidity (hw : Board) (s : Driver)
    (h : chipID_read hw = 0x60) :
    (BME280_calculate hw s).1.tADC = (BME280_read hw s).2.1.tADC
    ∧ (BME280_calculate hw s).1.hADC = (BME280_read hw s).2.1.hADC
    ∧ (BME280_calculate hw s).1.t_fine
        = (BME280_compensate_T_int32 s (BME280_read hw s).2.1.tADC).2.t_fine
    ∧ (BME280_calculate hw s).1.temp
        = ((BME280_compensate_T_int32 s (BME280_read hw s).2.1.tADC).1 : Rat) / 100
    ∧ (BME280_calculate hw s).1.hum
        = ((bme280_compensate_H_int32
              { s with t_fine := (BME280_calculate hw s).1.t_fine }
              (BME280_read hw s).2.1.hADC : Int) : Rat) / 1024
    ∧ ∀ t0 : Int, BME280_calculate hw { s with t_fine := t0 } = BME280_calculate hw s := by
  have hr := BME280_read_of_ready hw s h
  refine ⟨?_, ?_, ?_, ?_, ?_, ?_⟩
  · simp only [BME280_calculate, hr, if_true, BME280_compensate_T_int32]
  · simp only [BME280_calculate, hr, if_true, BME280_compensate_T_int32]
  · simp only [BME280_calculate, hr, if_true, BME280_compensate_T_int32]
  · simp only [BME280_calculate, hr, if_true, BME280_compensate_T_int32]
  · simp only [BME280_calculate, hr, if_true, BME280_compensate_T_int32,
      bme280_compensate_H_int32]
  · intro t0
    have hr0 := BME280_read_of_ready hw { s with t_fine := t0 } h
    simp only [BME280_calculate, hr, hr0, if_true, BME280_compensate_T_int32,
      bme280_compensate_H_int32]

/-- Instance of `BME280_calculate_temperature_then_humidity` on the sample board: raw values
519888 and 30000 give `t_fine = 128422`, 25.08 degrees and 61519/1024 percent. -/
theorem BME280_calculate_temperature_then_humidity_witness :
    chipID_read (sampleBoard 0x60 sampleBurst) = 0x60
    ∧ (BME280_calculate (sampleBoard 0x60 sampleBurst) sampleDriver).1.t_fine
        = (BME280_compensate_T_int32 sampleDriver
            (BME280_read (sampleBoard 0x60 sampleBurst) sampleDriver).2.1.tADC).2.t_fine
    ∧ (BME280_calculate (sampleBoard 0x60 sampleBurst) sampleDriver).1.t_fine = 128422
    ∧ bme280_compensate_H_int32 { sampleDriver with t_fine := 128422 } 30000 = 61519 :=
  ⟨by decide,
   (BME280_calculate_temperature_then_humidity (sampleBoard 0x60 sampleBurst) sampleDriver
      (by decide)).2.2.1,
   by decide, by decide⟩

/-- Claim C5: for every prior state and every identity byte other than 0x60,
`BME280_calculate` sets `temp` and `hum` to 0, so that `BME280_getTemp` and `BME280_getHum`
return 0, and its calls to collaborators are the identity read followed by one
`uartSendString` of the text "Device not ready. Check device connection" with CR LF: that
text is sent exactly once and nothing else is sent. -/
theorem BME280_calculate_not_ready (hw : Board) (s : Driver) (h : chipID_read hw ≠ 0x60) :
    (BME280_calculate hw s).1.temp = 0
    ∧ (BME280_calculate hw s).1.hum = 0
    ∧ BME280_getTemp (BME280_calculate hw s).1 = 0
    ∧ BME280_getHum (BME280_calculate hw s).1 = 0
    ∧ (BME280_calculate hw s).2
        = [Event.i2c_Mem_Read BME280_ADDRESS CHIPIDREG MEMADDRESSSIZE MEMADDRESSSIZE,
           Event.uartSendString "Device not ready. Check device connection\r\n"]
    ∧ List.count (Event.uartSendString "Device not ready. Check device connection\r\n")
        (BME280_calculate hw s).2 = 1 := by
  have hr := BME280_read_of_not_ready hw s h
  have hc : BME280_calculate hw s
      = ({ s with temp := 0, hum := 0 },
         [Event.i2c_Mem_Read BME280_ADDRESS CHIPIDREG MEMADDRESSSIZE MEMADDRESSSIZE,
          Event.uartSendString "Device not ready. Check device connection\r\n"]) := by
    simp only [BME280_calculate, hr, errorMessage]
    rfl
  rw [hc]
  refine ⟨rfl, rfl, rfl, rfl, rfl, ?_⟩
  dsimp only
  decide

/-- Instance of `BME280_calculate_not_ready` on a board whose identity byte is 0x61. -/
theorem BME280_calculate_not_ready_witness :
    chipID_read (sampleBoard 0x61 sampleBurst) ≠ 0x60
    ∧ BME280_getTemp (BME280_calculate (sampleBoard 0x61 sampleBurst) sampleDriver).1 = 0
    ∧ BME280_getHum (BME280_calculate (sampleBoard 0x61 sampleBurst) sampleDriver).1 = 0 :=
  ⟨by decide,
   (BME280_calculate_not_ready (sampleBoard 0x61 sampleBurst) sampleDriver (by decide)).2.2.1,
   (BME280_calculate_not_ready (sampleBoard 0x61 sampleBurst) sampleDriver (by decide)).2.2.2.1⟩

/-- Claim C6: `BME280_read` returns 0 exactly when the identity byte is 0x60; for every other
identity byte it returns 1, leaves the whole driver state (in particular `tADC`, `hADC` and
`t_fine`) as it was, and its only bus access is the identity read: no burst read. -/
theorem BME280_read_identity_check (hw : Board) (s : Driver) :
    ((BME280_read hw s).1 = 0 ↔ chipID_read hw = 0x60)
    ∧ (chipID_read hw ≠ 0x60 →
        (BME280_read hw s).1 = 1
        ∧ (BME280_read hw s).2.1 = s
        ∧ (BME280_read hw s).2.1.tADC = s.tADC
        ∧ (BME280_read hw s).2.1.hADC = s.hADC
        ∧ (BME280_read hw s).2.1.t_fine = s.t_fine
        ∧ (BME280_read hw s).2.2
            = [Event.i2c_Mem_Read BME280_ADDRESS CHIPIDREG MEMADDRESSSIZE MEMADDRESSSIZE]
        ∧ Event.i2c_Mem_Read BME280_ADDRESS RAWDATAREG1 MEMADDRESSSIZE RAWDATASIZE
            ∉ (BME280_read hw s).2.2) := by
  constructor
  · by_cases h : chipID_read hw = 0x60
    · rw [BME280_read_of_ready hw s h]
      simp [h]
    · rw [BME280_read_of_not_ready hw s h]
      simp [h]
  · intro h
    rw [BME280_read_of_not_ready hw s h]
    refine ⟨rfl, rfl, rfl, rfl, rfl, rfl, ?_⟩
    dsimp only
    decide

/-- Instance of `BME280_read_identity_check` on a board whose identity byte is 0x61. -/
theorem BME280_read_identity_check_witness :
    chipID_read (sampleBoard 0x61 sampleBurst) ≠ 0x60
    ∧ (BME280_read (sampleBoard 0x61 sampleBurst) sampleDriver).1 = 1 :=
  ⟨by decide,
   ((BME280_read_identity_check (sampleBoard 0x61 sampleBurst) sampleDriver).2
      (by decide)).1⟩

/-- Claim C7 as stated fails: on the sample board (identity 0x60, burst
12 34 56 7E ED 0C 75 30) the stored `tADC` is 519888 = 0x7EED0, not the value 0x12345 that the
first three bytes of the burst would give. -/
theorem BME280_read_first_three_bytes_counterexample :
    ¬ (∀ (hw : Board) (s : Driver), chipID_read hw = 0x60 →
        (BME280_read hw s).2.1.tADC
            = ((((sensorData_read hw 0).val <<< 12) ||| ((sensorData_read hw 1).val <<< 4)
                ||| ((sensorData_read hw 2).val >>> 4) : Nat) : Int)
        ∧ (BME280_read hw s).2.1.hADC
            = ((((sensorData_read hw 6).val <<< 8) ||| (sensorData_read hw 7).val : Nat)
                : Int)) := by
  intro hall
  have h := (hall (sampleBoard 0x60 sampleBurst) sampleDriver (by decide)).1
  revert h
  decide

/-- Claim C7, amended: after a successful acquisition of the burst `b[0..7]` the raw
temperature is taken from bytes 3, 4, 5 of the burst,
`tADC = (b[3] << 12) | (b[4] << 4) | (b[5] >> 4)`, and the raw humidity from the last two
bytes, `hADC = (b[6] << 8) | b[7]`. -/
theorem BME280_read_decodes_bytes_3_to_7 (hw : Board) (s : Driver)
    (h : chipID_read hw = 0x60) :
    (BME280_read hw s).1 = 0
    ∧ (BME280_read hw s).2.1.tADC
        = ((((sensorData_read hw 3).val <<< 12) ||| ((sensorData_read hw 4).val <<< 4)
            ||| ((sensorData_read hw 5).val >>> 4) : Nat) : Int)
    ∧ (BME280_read hw s).2.1.hADC
        = ((((sensorData_read hw 6).val <<< 8) ||| (sensorData_read hw 7).val : Nat) : Int) := by
  rw [BME280_read_of_ready hw s h]
  exact ⟨rfl, rfl, rfl⟩

/-- Instance of `BME280_read_decodes_bytes_3_to_7` on the sample board: the burst
12 34 56 7E ED 0C 75 30 gives `tADC = 519888` and `hADC = 30000`. -/
theorem BME280_read_decodes_bytes_3_to_7_witness :
    chipID_read (sampleBoard 0x60 sampleBurst) = 0x60
    ∧ (BME280_read (sampleBoard 0x60 sampleBurst) sampleDriver).2.1.tADC
        = ((((sensorData_read (sampleBoard 0x60 sampleBurst) 3).val <<< 12)
            ||| ((sensorData_read (sampleBoard 0x60 sampleBurst) 4).val <<< 4)
            ||| ((sensorData_read (sampleBoard 0x60 sampleBurst) 5).val >>> 4) : Nat) : Int)
    ∧ (BME280_read (sampleBoard 0x60 sampleBurst) sampleDriver).2.1.tADC = 519888
    ∧ (BME280_read (sampleBoard 0x60 sampleBurst) sampleDriver).2.1.hADC = 30000 :=
  ⟨by decide,
   (BME280_read_decodes_bytes_3_to_7 (sampleBoard 0x60 sampleBurst) sampleDriver
      (by decide)).2.1,
   by decide, by decide⟩

end BME280

/-! ## Claims: LED bank -/

namespace Leds

/-- Claim C8: for every 16-bit port value `p` and every `k` in `1..16`, `leds_turn_on k`
changes the port to `p | (1 << (k-1))`: bit `k-1` is set and every other bit is as in `p`;
on a port holding 0 the result is exactly `1 << (k-1)`. -/
theorem leds_turn_on_sets_bit (p : Nat) (k : Int) (hp : p < 65536) (hk : 1 ≤ k ∧ k ≤ 16) :
    leds_turn_on p k = some (p ||| (1 <<< (k - 1).toNat))
    ∧ (∀ i : Nat, (p ||| (1 <<< (k - 1).toNat)).testBit i
        = (decide (i = (k - 1).toNat) || p.testBit i))
    ∧ leds_turn_on 0 k = some (1 <<< (k - 1).toNat) := by
  have hm : 1 <<< (k - 1).toNat < 2 ^ 16 := one_shiftLeft_lt _ (by omega)
  have hor : p ||| (1 <<< (k - 1).toNat) < 65536 := Nat.or_lt_two_pow (n := 16) hp hm
  refine ⟨?_, ?_, ?_⟩
  · unfold leds_turn_on
    rw [if_pos hk, led_to_mask_in_range k hk]
    simp only
    rw [uint16_t_of_lt _ hor]
  · intro i
    rw [Nat.testBit_or, Nat.one_shiftLeft, Nat.testBit_two_pow, Bool.or_comm]
    congr 1
    simp [eq_comm]
  · unfold leds_turn_on
    rw [if_pos hk, led_to_mask_in_range k hk]
    simp only [Nat.zero_or]
    rw [uint16_t_of_lt _ hm]

/-- Instance of `leds_turn_on_sets_bit` at port 0x0041 and LED 3: the port becomes 0x0045. -/
theorem leds_turn_on_sets_bit_witness :
    (0x0041 : Nat) < 65536 ∧ ((1 : Int) ≤ 3 ∧ (3 : Int) ≤ 16)
    ∧ leds_turn_on 0x0041 3 = some (0x0041 ||| (1 <<< ((3 : Int) - 1).toNat))
    ∧ leds_turn_on 0x0041 3 = some 0x0045 :=
  ⟨by decide, by decide, (leds_turn_on_sets_bit 0x0041 3 (by decide) (by decide)).1,
   by decide⟩

/-- Claim C9: for every port value `p` and every `led` below 1 or above 16, both
`leds_turn_on led` and `leds_turn_off led` leave the port equal to `p`. -/
theorem leds_out_of_range_noop (p : Nat) (led : Int) (h : led < 1 ∨ led > 16) :
    leds_turn_on p led = some p ∧ leds_turn_off p led = some p := by
  have hn : ¬ (led ≥ 1 ∧ led ≤ 16) := by omega
  exact ⟨if_neg hn, if_neg hn⟩

/-- Instance of `leds_out_of_range_noop` at port 0x0045 and LED 17. -/
theorem leds_out_of_range_noop_witness :
    ((17 : Int) < 1 ∨ (17 : Int) > 16)
    ∧ leds_turn_on 0x0045 17 = some 0x0045 ∧ leds_turn_off 0x0045 17 = some 0x0045 :=
  ⟨by decide, leds_out_of_range_noop 0x0045 17 (by decide)⟩

/-- Claim C10, what the code does instead: for every port value and every `led` below 1 or
above 16, `led_is_turned_on led` returns no value at all (control leaves the function
without a `return`, or the mask shift is undefined); in particular it does not return
false. -/
theorem led_is_turned_on_out_of_range (p : Nat) (led : Int) (h : led < 1 ∨ led > 16) :
    led_is_turned_on p led = none ∧ led_is_turned_on p led ≠ some false := by
  have hn : ¬ (led ≥ 1 ∧ led ≤ 16) := by omega
  have hnone : led_is_turned_on p led = none := by
    unfold led_is_turned_on
    cases led_to_mask led with
    | none => rfl
    | some mask => simp only [if_neg hn]
  rw [hnone]
  exact ⟨rfl, by simp⟩

/-- Instance of `led_is_turned_on_out_of_range` at the port and LED of the unit test:
port 0x0000, LED 17. -/
theorem led_is_turned_on_out_of_range_witness :
    ((17 : Int) < 1 ∨ (17 : Int) > 16) ∧ led_is_turned_on 0x0000 17 = none :=
  ⟨by decide, (led_is_turned_on_out_of_range 0x0000 17 (by decide)).1⟩

end Leds

/-! ## Lemmas and claims: LED bank, single bits and the port word -/

namespace Leds

theorem and_one_shiftLeft_ne_zero (p n : Nat) : ((p &&& (1 <<< n)) != 0) = p.testBit n := by
  rw [Nat.one_shiftLeft, Nat.and_two_pow]
  cases p.testBit n <;> simp

theorem testBit_and_int_not (p n i : Nat) (hp : p < 65536) :
    (p &&& int_not (1 <<< n)).testBit i = (p.testBit i && !decide (i = n)) := by
  have h32 : (0xFFFFFFFF : Nat) = 2 ^ 32 - 1 := by decide
  unfold int_not
  rw [Nat.testBit_and, Nat.testBit_xor, Nat.one_shiftLeft, Nat.testBit_two_pow, h32,
    Nat.testBit_two_pow_sub_one]
  by_cases hi : i < 32
  · by_cases hn : n = i
    · simp [hi, hn]
    · have hn2 : ¬ i = n := fun h => hn h.symm
      simp [hi, hn, hn2]
  · have hlt : p < 2 ^ i :=
      Nat.lt_of_lt_of_le hp (Nat.le_trans (by decide : 65536 ≤ 2 ^ 32)
        (Nat.pow_le_pow_right (by decide) (Nat.le_of_not_lt hi)))
    rw [Nat.testBit_lt_two_pow hlt]
    simp

theorem leds_turn_off_in_range (p : Nat) (k : Int) (hp : p < 65536) (hk : 1 ≤ k ∧ k ≤ 16) :
    leds_turn_off p k = some (p &&& int_not (1 <<< (k - 1).toNat)) := by
  have hle : p &&& int_not (1 <<< (k - 1).toNat) < 65536 :=
    Nat.lt_of_le_of_lt Nat.and_le_left hp
  unfold leds_turn_off
  rw [if_pos hk, led_to_mask_in_range k hk]
  simp only
  rw [uint16_t_of_lt _ hle]

theorem leds_turn_on_in_range (p : Nat) (k : Int) (hp : p < 65536) (hk : 1 ≤ k ∧ k ≤ 16) :
    leds_turn_on p k = some (p ||| (1 <<< (k - 1).toNat)) := by
  have hm : 1 <<< (k - 1).toNat < 2 ^ 16 := one_shiftLeft_lt _ (by omega)
  have hor : p ||| (1 <<< (k - 1).toNat) < 65536 := Nat.or_lt_two_pow (n := 16) hp hm
  unfold leds_turn_on
  rw [if_pos hk, led_to_mask_in_range k hk]
  simp only
  rw [uint16_t_of_lt _ hor]

theorem led_is_turned_on_in_range (p : Nat) (k : Int) (hk : 1 ≤ k ∧ k ≤ 16) :
    led_is_turned_on p k = some (p.testBit (k - 1).toNat) := by
  unfold led_is_turned_on
  rw [led_to_mask_in_range k hk]
  simp only [if_pos hk, and_one_shiftLeft_ne_zero]

theorem set_then_clear_other (a b : Nat) (ha : a < 16) (hb : b < 16) (hab : a ≠ b) :
    ((0 ||| (1 <<< a)) ||| (1 <<< b)) &&& int_not (1 <<< a) = 1 <<< b := by
  have h1 : (0 : Nat) ||| (1 <<< a) < 2 ^ 16 := by
    rw [Nat.zero_or]
    exact one_shiftLeft_lt a ha
  have h2 : (0 ||| (1 <<< a)) ||| (1 <<< b) < 65536 :=
    Nat.or_lt_two_pow (n := 16) h1 (one_shiftLeft_lt b hb)
  apply Nat.eq_of_testBit_eq
  intro i
  rw [testBit_and_int_not _ _ i h2, Nat.testBit_or, Nat.zero_or, Nat.one_shiftLeft,
    Nat.one_shiftLeft, Nat.testBit_two_pow, Nat.testBit_two_pow]
  by_cases hi : i = a
  · have hbi : ¬ b = i := fun h => hab (hi ▸ h.symm)
    simp [hi, hbi]
    exact fun h => hab h.symm
  · have hai : ¬ a = i := fun h => hi h.symm
    simp [hi, hai]

theorem set_then_clear_same (p n : Nat) (hp : p < 65536) (hn : n < 16)
    (hclear : p.testBit n = false) :
    (p ||| (1 <<< n)) &&& int_not (1 <<< n) = p := by
  have h1 : p ||| (1 <<< n) < 65536 :=
    Nat.or_lt_two_pow (n := 16) hp (one_shiftLeft_lt n hn)
  apply Nat.eq_of_testBit_eq
  intro i
  rw [testBit_and_int_not _ _ i h1, Nat.testBit_or, Nat.one_shiftLeft, Nat.testBit_two_pow]
  by_cases hi : i = n
  · simp [hi, hclear]
  · have hni : ¬ n = i := fun h => hi h.symm
    simp [hi, hni]

/-- Claim C11: for every 16-bit port value `p` and every `k` in `1..16`, `led_is_turned_on k`
returns bit `k-1` of `p`, so it returns true exactly when that bit is set; it stores nothing
(read through the pointer, it is the same function of the word pointed to); it is false right
after `leds_init` and true right after `leds_turn_on k`. -/
theorem led_is_turned_on_reads_bit (p : Nat) (k : Int) (hp : p < 65536)
    (hk : 1 ≤ k ∧ k ≤ 16) :
    led_is_turned_on p k = some (p.testBit (k - 1).toNat)
    ∧ (led_is_turned_on p k = some true ↔ p.testBit (k - 1).toNat = true)
    ∧ (∀ b : Bank, Bank.led_is_turned_on b k = some ((b.word b.puerto_virtual).testBit
        (k - 1).toNat))
    ∧ led_is_turned_on (leds_init p) k = some false
    ∧ (leds_turn_on p k).bind (fun q => led_is_turned_on q k) = some true := by
  have hread := led_is_turned_on_in_range p k hk
  refine ⟨hread, ?_, ?_, ?_, ?_⟩
  · rw [hread]
    simp
  · intro b
    exact led_is_turned_on_in_range _ k hk
  · rw [led_is_turned_on_in_range _ k hk]
    simp [leds_init, leds_turn_off_all, ALL_LEDS_OFF]
  · rw [leds_turn_on_in_range p k hp hk, Option.some_bind, led_is_turned_on_in_range _ k hk,
      Nat.testBit_or, Nat.one_shiftLeft, Nat.testBit_two_pow_self, Bool.or_true]

/-- Instance of `led_is_turned_on_reads_bit` at port 0x0004 and LED 3 (bit 2 is set). -/
theorem led_is_turned_on_reads_bit_witness :
    (0x0004 : Nat) < 65536 ∧ ((1 : Int) ≤ 3 ∧ (3 : Int) ≤ 16)
    ∧ led_is_turned_on 0x0004 3 = some (Nat.testBit 0x0004 ((3 : Int) - 1).toNat)
    ∧ led_is_turned_on 0x0004 3 = some true
    ∧ led_is_turned_on 0x0004 2 = some false :=
  ⟨by decide, by decide, (led_is_turned_on_reads_bit 0x0004 3 (by decide) (by decide)).1,
   by decide, by decide⟩

/-- Claim C12: for every 16-bit port value `p` and every `k` in `1..16`, `leds_turn_off k`
changes the port to `p` with bit `k-1` cleared and every other bit unchanged; hence, for
distinct `j`, `k` in `1..16` and starting from 0, `turn_on j; turn_on k; turn_off j` leaves
exactly `1 << (k-1)`, and `turn_on k; turn_off k` restores any port whose bit `k-1` was
clear. -/
theorem leds_turn_off_clears_bit (p : Nat) (k : Int) (hp : p < 65536) (hk : 1 ≤ k ∧ k ≤ 16) :
    (∃ q : Nat, leds_turn_off p k = some q ∧ q < 65536
        ∧ ∀ i : Nat, q.testBit i = (p.testBit i && !decide (i = (k - 1).toNat)))
    ∧ (∀ j : Int, 1 ≤ j ∧ j ≤ 16 → j ≠ k →
        (leds_turn_on 0 j).bind (fun a => (leds_turn_on a k).bind (fun b => leds_turn_off b j))
          = some (1 <<< (k - 1).toNat))
    ∧ (p.testBit (k - 1).toNat = false →
        (leds_turn_on p k).bind (fun a => leds_turn_off a k) = some p) := by
  have hm : ∀ n : Int, 1 ≤ n ∧ n ≤ 16 → 1 <<< (n - 1).toNat < 2 ^ 16 :=
    fun n hn => one_shiftLeft_lt _ (by omega)
  refine ⟨⟨_, leds_turn_off_in_range p k hp hk, Nat.lt_of_le_of_lt Nat.and_le_left hp,
    fun i => testBit_and_int_not p _ i hp⟩, ?_, ?_⟩
  · intro j hj hjk
    have hne : (j - 1).toNat ≠ (k - 1).toNat := by omega
    have h1 : (0 : Nat) ||| (1 <<< (j - 1).toNat) < 65536 := by
      rw [Nat.zero_or]
      exact hm j hj
    have h2 : (0 ||| (1 <<< (j - 1).toNat)) ||| (1 <<< (k - 1).toNat) < 65536 :=
      Nat.or_lt_two_pow (n := 16) h1 (hm k hk)
    rw [leds_turn_on_in_range 0 j (by decide) hj, Option.some_bind,
      leds_turn_on_in_range _ k h1 hk, Option.some_bind, leds_turn_off_in_range _ j h2 hj]
    exact congrArg some (set_then_clear_other _ _ (by omega) (by omega) hne)
  · intro hclear
    have h1 : p ||| (1 <<< (k - 1).toNat) < 65536 := Nat.or_lt_two_pow (n := 16) hp (hm k hk)
    rw [leds_turn_on_in_range p k hp hk, Option.some_bind, leds_turn_off_in_range _ k h1 hk]
    exact congrArg some (set_then_clear_same p _ hp (by omega) hclear)

/-- Instance of `leds_turn_off_clears_bit` at port 0x0045 and LED 3: the port becomes 0x0041. -/
theorem leds_turn_off_clears_bit_witness :
    (0x0045 : Nat) < 65536 ∧ ((1 : Int) ≤ 3 ∧ (3 : Int) ≤ 16)
    ∧ (∃ q : Nat, leds_turn_off 0x0045 3 = some q ∧ q < 65536
        ∧ ∀ i : Nat, q.testBit i = (Nat.testBit 0x0045 i && !decide (i = ((3 : Int) - 1).toNat)))
    ∧ leds_turn_off 0x0045 3 = some 0x0041
    ∧ (leds_turn_on 0 3).bind (fun a => (leds_turn_on a 7).bind (fun b => leds_turn_off b 3))
        = some (1 <<< 6) :=
  ⟨by decide, by decide, (leds_turn_off_clears_bit 0x0045 3 (by decide) (by decide)).1,
   by decide, by decide⟩

end Leds

namespace Leds

theorem Bank.word_store (b : Bank) (v a : Nat) (h : b.puerto_virtual = a) :
    (b.store v).word a = v := by
  simp [Bank.store, h]

/-- Claim C13: whatever the caller-supplied word holds (0xFFFF in the unit test), `leds_init`
makes `puerto_virtual` point to that word and sets the word to 0x0000, leaving every other
word alone; the operations that follow read and write that same word. -/
theorem leds_init_clears_port (b : Bank) (puerto : Nat) :
    (Bank.leds_init b puerto).puerto_virtual = puerto
    ∧ (Bank.leds_init b puerto).word puerto = 0x0000
    ∧ (∀ a : Nat, a ≠ puerto → (Bank.leds_init b puerto).word a = b.word a)
    ∧ leds_init (b.word puerto) = 0x0000
    ∧ leds_init 0xFFFF = 0x0000
    ∧ (Bank.leds_turn_on_all (Bank.leds_init b puerto)).word puerto = 0xFFFF
    ∧ (Bank.leds_turn_off_all (Bank.leds_init b puerto)).word puerto = 0x0000
    ∧ (∀ led : Int,
        (Bank.leds_turn_on (Bank.leds_init b puerto) led).map (fun c => c.word puerto)
          = leds_turn_on 0x0000 led)
    ∧ (∀ led : Int,
        (Bank.leds_turn_off (Bank.leds_init b puerto) led).map (fun c => c.word puerto)
          = leds_turn_off 0x0000 led)
    ∧ (∀ led : Int,
        Bank.led_is_turned_on (Bank.leds_init b puerto) led = led_is_turned_on 0x0000 led) := by
  have hptr : (Bank.leds_init b puerto).puerto_virtual = puerto := rfl
  have hword : (Bank.leds_init b puerto).word puerto = 0 := by
    simp [Bank.leds_init, Bank.leds_turn_off_all, Bank.store, leds_turn_off_all, ALL_LEDS_OFF]
  have hport : (Bank.leds_init b puerto).port = 0 := by
    rw [Bank.port, hptr, hword]
  refine ⟨hptr, hword, ?_, rfl, rfl, ?_, ?_, ?_, ?_, ?_⟩
  · intro a ha
    simp [Bank.leds_init, Bank.leds_turn_off_all, Bank.store, ha]
  · rw [Bank.leds_turn_on_all, Bank.word_store _ _ _ hptr]
    rfl
  · rw [Bank.leds_turn_off_all, Bank.word_store _ _ _ hptr]
    rfl
  · intro led
    rw [Bank.leds_turn_on, hport, Option.map_map]
    cases leds_turn_on 0 led with
    | none => rfl
    | some v =>
      simp only [Option.map_some', Function.comp_apply]
      rw [Bank.word_store _ _ _ hptr]
  · intro led
    rw [Bank.leds_turn_off, hport, Option.map_map]
    cases leds_turn_off 0 led with
    | none => rfl
    | some v =>
      simp only [Option.map_some', Function.comp_apply]
      rw [Bank.word_store _ _ _ hptr]
  · intro led
    rw [Bank.led_is_turned_on, hport]

/-- Claim C14: for every port value, `leds_turn_on_all` sets the port to 0xFFFF and
`leds_turn_off_all` sets it to 0x0000, so `leds_turn_on_all` followed by `leds_turn_off_all`
yields 0x0000 whatever the port held before; the same holds for the word behind the
pointer. -/
theorem leds_turn_on_all_then_off_all (p : Nat) :
    leds_turn_on_all p = 0xFFFF
    ∧ leds_turn_off_all p = 0x0000
    ∧ leds_turn_off_all (leds_turn_on_all p) = 0x0000
    ∧ (∀ b : Bank, (Bank.leds_turn_on_all b).port = 0xFFFF
        ∧ (Bank.leds_turn_off_all b).port = 0x0000
        ∧ (Bank.leds_turn_off_all (Bank.leds_turn_on_all b)).port = 0x0000) := by
  refine ⟨rfl, rfl, rfl, ?_⟩
  intro b
  refine ⟨?_, ?_, ?_⟩
  · simp [Bank.leds_turn_on_all, Bank.port, Bank.store, leds_turn_on_all, ALL_LEDS_ON]
  · simp [Bank.leds_turn_off_all, Bank.port, Bank.store, leds_turn_off_all, ALL_LEDS_OFF]
  · simp [Bank.leds_turn_off_all, Bank.leds_turn_on_all, Bank.port, Bank.store,
      leds_turn_off_all, ALL_LEDS_OFF]

end Leds

/-! ## Lemmas and claims: worked example, calibration words, initialisation -/

namespace BME280

theorem pack16_eq_le16 (hi lo : Byte) : pack16 hi lo = le16 lo hi := by
  have hlo : lo.val < 2 ^ 8 := lo.isLt
  have h : (hi.val <<< 8) ||| lo.val = 2 ^ 8 * hi.val + lo.val := by
    rw [Nat.shiftLeft_eq, Nat.mul_comm, Nat.mul_add_lt_is_or hlo]
  unfold pack16 le16
  rw [h]
  push_cast
  omega

theorem le16_range (lo hi : Byte) : 0 ≤ le16 lo hi ∧ le16 lo hi ≤ 65535 := by
  have hlo := lo.isLt
  have hhi := hi.isLt
  unfold le16
  omega

theorem uint16_t_pack16 (hi lo : Byte) :
    uint16_t (pack16 hi lo) = le16 lo hi
    ∧ 0 ≤ uint16_t (pack16 hi lo) ∧ uint16_t (pack16 hi lo) ≤ 65535 := by
  have hr := le16_range lo hi
  have he : uint16_t (pack16 hi lo) = le16 lo hi := by
    rw [pack16_eq_le16]
    unfold uint16_t
    omega
  rw [he]
  exact ⟨rfl, hr⟩

theorem int16_t_pack16 (hi lo : Byte) :
    int16_t (pack16 hi lo) = as_int16 (le16 lo hi)
    ∧ -32768 ≤ int16_t (pack16 hi lo) ∧ int16_t (pack16 hi lo) ≤ 32767 := by
  have hr := le16_range lo hi
  rw [pack16_eq_le16]
  unfold int16_t as_int16
  split_ifs <;> omega

/-- Claim C15: with the datasheet worked-example inputs `dig_T1 = 27504`, `dig_T2 = 26435`,
`dig_T3 = -1000` and `adc_T = 519888`, `BME280_compensate_T_int32` leaves `t_fine = 128422`
and returns `T = 2508` (25.08 degrees Celsius). -/
theorem compensate_T_int32_datasheet_example (s : Driver)
    (h1 : s.dig_T1 = 27504) (h2 : s.dig_T2 = 26435) (h3 : s.dig_T3 = -1000) :
    (BME280_compensate_T_int32 s 519888).1 = 2508
    ∧ (BME280_compensate_T_int32 s 519888).2.t_fine = 128422 := by
  simp only [BME280_compensate_T_int32, h1, h2, h3]
  decide

/-- Instance of `compensate_T_int32_datasheet_example` at the sample driver state. -/
theorem compensate_T_int32_datasheet_example_witness :
    sampleDriver.dig_T1 = 27504 ∧ sampleDriver.dig_T2 = 26435 ∧ sampleDriver.dig_T3 = -1000
    ∧ (BME280_compensate_T_int32 sampleDriver 519888).1 = 2508
    ∧ (BME280_compensate_T_int32 sampleDriver 519888).2.t_fine = 128422 :=
  ⟨rfl, rfl, rfl, compensate_T_int32_datasheet_example sampleDriver rfl rfl rfl⟩

/-- Claim C16, what the code does instead: `trimmingParametersRead` stores in `dig_H6` the
byte read into `calibData2[6]` as an unsigned value in `[0, 255]`; for a byte of 0x80 or
more this differs from the two's-complement reading, and the byte 0xFF gives 255, not -1. -/
theorem trimmingParametersRead_dig_H6_unsigned (hw : Board) (s : Driver) :
    (trimmingParametersRead hw s).1.dig_H6 = ((calibData2_read hw 6).val : Int)
    ∧ 0 ≤ (trimmingParametersRead hw s).1.dig_H6
    ∧ (trimmingParametersRead hw s).1.dig_H6 ≤ 255
    ∧ (trimmingParametersRead hw s).1.dig_H6
        = as_int8 (calibData2_read hw 6) + (if (calibData2_read hw 6).val < 128 then 0 else 256)
    ∧ (trimmingParametersRead (calibBoard [] [0, 0, 0, 0, 0, 0, 0xFF]) s).1.dig_H6 = 255
    ∧ as_int8 0xFF = -1 := by
  have hb := (calibData2_read hw 6).isLt
  have he : (trimmingParametersRead hw s).1.dig_H6 = ((calibData2_read hw 6).val : Int) := by
    show int16_t _ = _
    exact int16_t_of_range _ (by omega)
  refine ⟨he, by omega, by omega, ?_, ?_, by decide⟩
  swap
  · show int16_t _ = _
    decide
  rw [he]
  unfold as_int8
  split_ifs <;> omega

/-- Claim C17: for all calibration bytes every 16-bit calibration word is packed
little-endian from its byte pair: `dig_T1` and `dig_P1` equal `lo + 256*hi`, a value in
`[0, 65535]`, and `dig_T2`, `dig_T3`, `dig_P2` .. `dig_P9` and `dig_H2` equal `lo + 256*hi`
read as a two's-complement 16-bit integer, a value in `[-32768, 32767]`. -/
theorem trimmingParametersRead_little_endian (hw : Board) (s : Driver) :
    ((trimmingParametersRead hw s).1.dig_T1
        = le16 (calibData1_read hw 0) (calibData1_read hw 1)
      ∧ 0 ≤ (trimmingParametersRead hw s).1.dig_T1
      ∧ (trimmingParametersRead hw s).1.dig_T1 ≤ 65535)
    ∧ ((trimmingParametersRead hw s).1.dig_P1
        = le16 (calibData1_read hw 6) (calibData1_read hw 7)
      ∧ 0 ≤ (trimmingParametersRead hw s).1.dig_P1
      ∧ (trimmingParametersRead hw s).1.dig_P1 ≤ 65535)
    ∧ ((trimmingParametersRead hw s).1.dig_T2
        = as_int16 (le16 (calibData1_read hw 2) (calibData1_read hw 3))
      ∧ -32768 ≤ (trimmingParametersRead hw s).1.dig_T2
      ∧ (trimmingParametersRead hw s).1.dig_T2 ≤ 32767)
    ∧ ((trimmingParametersRead hw s).1.dig_T3
        = as_int16 (le16 (calibData1_read hw 4) (calibData1_read hw 5))
      ∧ -32768 ≤ (trimmingParametersRead hw s).1.dig_T3
      ∧ (trimmingParametersRead hw s).1.dig_T3 ≤ 32767)
    ∧ ((trimmingParametersRead hw s).1.dig_P2
        = as_int16 (le16 (calibData1_read hw 8) (calibData1_read hw 9))
      ∧ -32768 ≤ (trimmingParametersRead hw s).1.dig_P2
      ∧ (trimmingParametersRead hw s).1.dig_P2 ≤ 32767)
    ∧ ((trimmingParametersRead hw s).1.dig_P3
        = as_int16 (le16 (calibData1_read hw 10) (calibData1_read hw 11))
      ∧ -32768 ≤ (trimmingParametersRead hw s).1.dig_P3
      ∧ (trimmingParametersRead hw s).1.dig_P3 ≤ 32767)
    ∧ ((trimmingParametersRead hw s).1.dig_P4
        = as_int16 (le16 (calibData1_read hw 12) (calibData1_read hw 13))
      ∧ -32768 ≤ (trimmingParametersRead hw s).1.dig_P4
      ∧ (trimmingParametersRead hw s).1.dig_P4 ≤ 32767)
    ∧ ((trimmingParametersRead hw s).1.dig_P5
        = as_int16 (le16 (calibData1_read hw 14) (calibData1_read hw 15))
      ∧ -32768 ≤ (trimmingParametersRead hw s).1.dig_P5
      ∧ (trimmingParametersRead hw s).1.dig_P5 ≤ 32767)
    ∧ ((trimmingParametersRead hw s).1.dig_P6
        = as_int16 (le16 (calibData1_read hw 16) (calibData1_read hw 17))
      ∧ -32768 ≤ (trimmingParametersRead hw s).1.dig_P6
      ∧ (trimmingParametersRead hw s).1.dig_P6 ≤ 32767)
    ∧ ((trimmingParametersRead hw s).1.dig_P7
        = as_int16 (le16 (calibData1_read hw 18) (calibData1_read hw 19))
      ∧ -32768 ≤ (trimmingParametersRead hw s).1.dig_P7
      ∧ (trimmingParametersRead hw s).1.dig_P7 ≤ 32767)
    ∧ ((trimmingParametersRead hw s).1.dig_P8
        = as_int16 (le16 (calibData1_read hw 20) (calibData1_read hw 21))
      ∧ -32768 ≤ (trimmingParametersRead hw s).1.dig_P8
      ∧ (trimmingParametersRead hw s).1.dig_P8 ≤ 32767)
    ∧ ((trimmingParametersRead hw s).1.dig_P9
        = as_int16 (le16 (calibData1_read hw 22) (calibData1_read hw 23))
      ∧ -32768 ≤ (trimmingParametersRead hw s).1.dig_P9
      ∧ (trimmingParametersRead hw s).1.dig_P9 ≤ 32767)
    ∧ ((trimmingParametersRead hw s).1.dig_H2
        = as_int16 (le16 (calibData2_read hw 0) (calibData2_read hw 1))
      ∧ -32768 ≤ (trimmingParametersRead hw s).1.dig_H2
      ∧ (trimmingParametersRead hw s).1.dig_H2 ≤ 32767) :=
  ⟨uint16_t_pack16 _ _, uint16_t_pack16 _ _, int16_t_pack16 _ _, int16_t_pack16 _ _,
   int16_t_pack16 _ _, int16_t_pack16 _ _, int16_t_pack16 _ _, int16_t_pack16 _ _,
   int16_t_pack16 _ _, int16_t_pack16 _ _, int16_t_pack16 _ _, int16_t_pack16 _ _,
   int16_t_pack16 _ _⟩

/-- Claim C18: `BME280_init` first performs the two calibration reads (25 bytes at 0x88,
7 bytes at 0xE1) and keeps their calibration, then issues exactly four single-byte writes,
each followed by a 100 ms delay, in this order: 0xB6 to 0xE0, 0x01 to 0xF2, 0xA3 to 0xF4
(bits 7..5 = 101, bits 4..2 = 000, bits 1..0 = 11) and 0x10 to 0xF5 (bits 7..5 = 000,
bits 4..2 = 100). -/
theorem BME280_init_sequence (hw : Board) (s : Driver) :
    (BME280_init hw s).2
        = [Event.i2c_Mem_Read 0xEC 0x88 1 25,
           Event.i2c_Mem_Read 0xEC 0xE1 1 7,
           Event.i2c_Mem_Write 0xEC 0xE0 1 [0xB6] 1,
           Event.HAL_Delay 100,
           Event.i2c_Mem_Write 0xEC 0xF2 1 [0x01] 1,
           Event.HAL_Delay 100,
           Event.i2c_Mem_Write 0xEC 0xF4 1 [0xA3] 1,
           Event.HAL_Delay 100,
           Event.i2c_Mem_Write 0xEC 0xF5 1 [0x10] 1,
           Event.HAL_Delay 100]
    ∧ (BME280_init hw s).1 = (trimmingParametersRead hw s).1
    ∧ (BME280_init hw s).2.take 2 = (trimmingParametersRead hw s).2
    ∧ ((0xA3 >>> 5) &&& 7 = 0b101 ∧ (0xA3 >>> 2) &&& 7 = 0b000 ∧ 0xA3 &&& 3 = 0b11)
    ∧ ((0x10 >>> 5) &&& 7 = 0b000 ∧ (0x10 >>> 2) &&& 7 = 0b100) := by
  refine ⟨?_, rfl, ?_, by decide, by decide⟩
  · simp only [BME280_init, trimmingParametersRead]
    decide
  · simp only [BME280_init, trimmingParametersRead]
    decide

end BME280

/-! ## Claims: bus failure and calibration immutability -/

namespace BME280

/-- Claim C19, what the code does instead: when the identity read fails (non-zero status,
buffer left as it was) and the uninitialised local `chipID` happens to hold 0x60,
`BME280_calculate` runs the success path: it issues the burst read, sends no diagnostic
message, overwrites `tADC` and `hADC` with the decoding of whatever `sensorData` holds and
sets `temp` from it instead of zeroing it. -/
theorem BME280_calculate_dead_bus_stale_identity (hw : Board) (s : Driver)
    (_hstatus :
      (hw.i2c_Mem_Read BME280_ADDRESS CHIPIDREG MEMADDRESSSIZE (fun _ => hw.chipID)
        MEMADDRESSSIZE).1 ≠ 0)
    (hbuffer :
      (hw.i2c_Mem_Read BME280_ADDRESS CHIPIDREG MEMADDRESSSIZE (fun _ => hw.chipID)
        MEMADDRESSSIZE).2 = fun _ => hw.chipID)
    (hstale : hw.chipID = 0x60) :
    (BME280_calculate hw s).2
        = [Event.i2c_Mem_Read BME280_ADDRESS CHIPIDREG MEMADDRESSSIZE MEMADDRESSSIZE,
           Event.i2c_Mem_Read BME280_ADDRESS RAWDATAREG1 MEMADDRESSSIZE RAWDATASIZE]
    ∧ Event.uartSendString errorMessage ∉ (BME280_calculate hw s).2
    ∧ (BME280_calculate hw s).1.tADC
        = ((((sensorData_read hw 3).val <<< 12) ||| ((sensorData_read hw 4).val <<< 4)
            ||| ((sensorData_read hw 5).val >>> 4) : Nat) : Int)
    ∧ (BME280_calculate hw s).1.hADC
        = ((((sensorData_read hw 6).val <<< 8) ||| (sensorData_read hw 7).val : Nat) : Int)
    ∧ (BME280_calculate hw s).1.temp
        = ((BME280_compensate_T_int32 s (BME280_calculate hw s).1.tADC).1 : Rat) / 100 := by
  have hid : chipID_read hw = 0x60 := by
    unfold chipID_read
    rw [hbuffer]
    exact hstale
  have hr := BME280_read_of_ready hw s hid
  have hev : (BME280_calculate hw s).2
      = [Event.i2c_Mem_Read BME280_ADDRESS CHIPIDREG MEMADDRESSSIZE MEMADDRESSSIZE,
         Event.i2c_Mem_Read BME280_ADDRESS RAWDATAREG1 MEMADDRESSSIZE RAWDATASIZE] := by
    simp only [BME280_calculate, hr, if_true]
  refine ⟨hev, ?_, ?_, ?_, ?_⟩
  · rw [hev]
    decide
  · simp only [BME280_calculate, hr, if_true, BME280_compensate_T_int32]
  · simp only [BME280_calculate, hr, if_true, BME280_compensate_T_int32]
  · simp only [BME280_calculate, hr, if_true, BME280_compensate_T_int32]

/-- Instance of `BME280_calculate_dead_bus_stale_identity` on the dead-bus board: no
diagnostic is sent, `tADC` goes from 0 to 519888 and the temperature result is 2508, so
`temp` is 25.08 and not 0. -/
theorem BME280_calculate_dead_bus_stale_identity_witness :
    (deadBusBoard.i2c_Mem_Read BME280_ADDRESS CHIPIDREG MEMADDRESSSIZE
        (fun _ => deadBusBoard.chipID) MEMADDRESSSIZE).1 ≠ 0
    ∧ deadBusBoard.chipID = 0x60
    ∧ Event.uartSendString errorMessage ∉ (BME280_calculate deadBusBoard sampleDriver).2
    ∧ sampleDriver.tADC = 0
    ∧ (BME280_calculate deadBusBoard sampleDriver).1.tADC = 519888
    ∧ (BME280_compensate_T_int32 sampleDriver 519888).1 = 2508 :=
  ⟨by decide, rfl,
   (BME280_calculate_dead_bus_stale_identity deadBusBoard sampleDriver (by decide) rfl
      rfl).2.1,
   rfl, by decide, by decide⟩

/-- Claim C20: for every driver state and every bus response, `BME280_calculate` (on the
success and on the failure path), `BME280_read`, `BME280_compensate_T_int32` and
`BME280_uart` leave all 18 calibration constants unchanged (`bme280_compensate_H_int32`,
`BME280_getTemp` and `BME280_getHum` only return a value and store nothing); the
calibration after `BME280_init` is the one `trimmingParametersRead` loads, and that one is
determined by the bus answer alone, not by the constants held before. -/
theorem calibration_immutable_after_init (hw : Board) (s : Driver) (adc_T : Int) :
    (BME280_calculate hw s).1.calibration = s.calibration
    ∧ (BME280_read hw s).2.1.calibration = s.calibration
    ∧ (BME280_compensate_T_int32 s adc_T).2.calibration = s.calibration
    ∧ (BME280_uart hw s).1 = s
    ∧ (BME280_init hw s).1.calibration = (trimmingParametersRead hw s).1.calibration
    ∧ (∀ s2 : Driver,
        (trimmingParametersRead hw s2).1.calibration
          = (trimmingParametersRead hw s).1.calibration) := by
  have hread : (BME280_read hw s).2.1.calibration = s.calibration := by
    by_cases h : chipID_read hw = 0x60
    · rw [BME280_read_of_ready hw s h]
      rfl
    · rw [BME280_read_of_not_ready hw s h]
  refine ⟨?_, hread, rfl, rfl, rfl, fun s2 => rfl⟩
  by_cases h : chipID_read hw = 0x60
  · simp only [BME280_calculate, BME280_read_of_ready hw s h, if_true,
      BME280_compensate_T_int32]
    rfl
  · simp only [BME280_calculate, BME280_read_of_not_ready hw s h]
    rfl

end BME280

/-! ## Lemmas and claims: raw decoding, overflow envelope, mask shifts -/

namespace BME280

theorem mul_bounds (a b A B : Int) (ha : -A ≤ a ∧ a ≤ A) (hb : -B ≤ b ∧ b ≤ B) :
    -(A * B) ≤ a * b ∧ a * b ≤ A * B := by
  obtain ⟨ha1, ha2⟩ := ha
  obtain ⟨hb1, hb2⟩ := hb
  constructor <;> nlinarith [mul_nonneg (sub_nonneg.2 ha2) (sub_nonneg.2 hb2),
    mul_nonneg (sub_nonneg.2 ha2) (sub_nonneg.2 (neg_le.1 hb1)),
    mul_nonneg (sub_nonneg.2 (neg_le.1 ha1)) (sub_nonneg.2 hb2),
    mul_nonneg (sub_nonneg.2 (neg_le.1 ha1)) (sub_nonneg.2 (neg_le.1 hb1))]

end BME280

namespace BME280

theorem compensate_T_eq_T_formula (s : Driver) (adc_T : Int)
    (hT1 : 0 ≤ s.dig_T1 ∧ s.dig_T1 ≤ 65535)
    (hT2 : -32768 ≤ s.dig_T2 ∧ s.dig_T2 ≤ 32767)
    (hT3 : -32768 ≤ s.dig_T3 ∧ s.dig_T3 ≤ 32767) :
    BME280_compensate_T_int32 s adc_T
      = ((T_formula s.dig_T1 s.dig_T2 s.dig_T3 adc_T).1,
         { s with t_fine := (T_formula s.dig_T1 s.dig_T2 s.dig_T3 adc_T).2 }) := by
  have e1 : BME280_S32_t s.dig_T1 = s.dig_T1 := BME280_S32_t_of_range _ (by omega)
  have e2 : BME280_S32_t s.dig_T2 = s.dig_T2 := BME280_S32_t_of_range _ (by omega)
  have e3 : BME280_S32_t s.dig_T3 = s.dig_T3 := BME280_S32_t_of_range _ (by omega)
  simp only [BME280_compensate_T_int32, T_formula, add32, sub32, mul32, shl32, shr32_eq_div,
    e1, e2, e3]
  norm_num

/-- Inside the envelope every sub-expression of the temperature formula stays within the
signed 32-bit range. -/
theorem T_intermediates_in_range (T1 T2 T3 adc_T : Int)
    (hadc : 0 ≤ adc_T ∧ adc_T ≤ 1048575)
    (hT1 : 0 ≤ T1 ∧ T1 ≤ 65535)
    (hT2 : -16383 ≤ T2 ∧ T2 ≤ 16383)
    (hT3 : -4095 ≤ T3 ∧ T3 ≤ 4095)
    (hd : -46340 ≤ adc_T / 16 - T1 ∧ adc_T / 16 - T1 ≤ 46340) :
    ∀ x ∈ T_intermediates T1 T2 T3 adc_T, -2147483648 ≤ x ∧ x ≤ 2147483647 := by
  have hd1 : -131071 ≤ adc_T / 8 - T1 * 2 ∧ adc_T / 8 - T1 * 2 ≤ 131071 := by omega
  have hp1 := mul_bounds (adc_T / 8 - T1 * 2) T2 131071 16383 hd1 hT2
  have hsq := mul_bounds (adc_T / 16 - T1) (adc_T / 16 - T1) 46340 46340 hd hd
  have hq : -524267 ≤ (adc_T / 16 - T1) * (adc_T / 16 - T1) / 4096
      ∧ (adc_T / 16 - T1) * (adc_T / 16 - T1) / 4096 ≤ 524267 := by
    generalize (adc_T / 16 - T1) * (adc_T / 16 - T1) = sq at hsq
    omega
  have hp2 := mul_bounds ((adc_T / 16 - T1) * (adc_T / 16 - T1) / 4096) T3 524267 4095 hq hT3
  intro x hx
  simp only [T_intermediates, List.mem_cons, List.mem_singleton, List.not_mem_nil,
    or_false] at hx
  generalize (adc_T / 16 - T1) * (adc_T / 16 - T1) / 4096 * T3 = p2 at hp2 hx
  generalize (adc_T / 16 - T1) * (adc_T / 16 - T1) = sq at hsq hq hx
  generalize (adc_T / 8 - T1 * 2) * T2 = p1 at hp1 hx
  rcases hx with h | h | h | h | h | h | h | h | h | h | h | h | h | h | h <;> omega

end BME280

namespace BME280

/-- Inside the envelope no wrap of the 32-bit formula changes a value. -/
theorem T_formula_eq_unbounded (T1 T2 T3 adc_T : Int)
    (hadc : 0 ≤ adc_T ∧ adc_T ≤ 1048575)
    (hT1 : 0 ≤ T1 ∧ T1 ≤ 65535)
    (hT2 : -16383 ≤ T2 ∧ T2 ≤ 16383)
    (hT3 : -4095 ≤ T3 ∧ T3 ≤ 4095)
    (hd : -46340 ≤ adc_T / 16 - T1 ∧ adc_T / 16 - T1 ≤ 46340) :
    T_formula T1 T2 T3 adc_T = T_formula_unbounded T1 T2 T3 adc_T := by
  have hr := T_intermediates_in_range T1 T2 T3 adc_T hadc hT1 hT2 hT3 hd
  simp only [T_intermediates, List.mem_cons, List.mem_singleton, List.not_mem_nil, or_false,
    forall_eq_or_imp, forall_eq] at hr
  obtain ⟨-, h2, h3, h4, -, -, h7, h8, -, h10, -, h12, h13, h14, -⟩ := hr
  simp only [T_formula, T_formula_unbounded]
  rw [BME280_S32_t_of_range _ h2, BME280_S32_t_of_range _ h3, BME280_S32_t_of_range _ h4,
    BME280_S32_t_of_range _ h7, BME280_S32_t_of_range _ h8, BME280_S32_t_of_range _ h10,
    BME280_S32_t_of_range _ h12, BME280_S32_t_of_range _ h13, BME280_S32_t_of_range _ h14]

/-- Claim C22: for `adc_T` in `[0, 2^20 - 1]`, `dig_T1` in `[0, 65535]`, `|dig_T2| <= 16383`,
`|dig_T3| <= 4095` and `|(adc_T >> 4) - dig_T1| <= 46340`, every sub-expression of the
temperature formula stays within the signed 32-bit range, and `BME280_compensate_T_int32`
returns the `T` and stores the `t_fine` of the same formula evaluated over unbounded integers
with floor division by powers of two. -/
theorem compensate_T_int32_no_overflow (s : Driver) (adc_T : Int)
    (hadc : 0 ≤ adc_T ∧ adc_T ≤ 2 ^ 20 - 1)
    (hT1 : 0 ≤ s.dig_T1 ∧ s.dig_T1 ≤ 65535)
    (hT2 : -16383 ≤ s.dig_T2 ∧ s.dig_T2 ≤ 16383)
    (hT3 : -4095 ≤ s.dig_T3 ∧ s.dig_T3 ≤ 4095)
    (hd : -46340 ≤ shr32 adc_T 4 - s.dig_T1 ∧ shr32 adc_T 4 - s.dig_T1 ≤ 46340) :
    (∀ x ∈ T_intermediates s.dig_T1 s.dig_T2 s.dig_T3 adc_T,
        -2147483648 ≤ x ∧ x ≤ 2147483647)
    ∧ BME280_compensate_T_int32 s adc_T
        = ((T_formula_unbounded s.dig_T1 s.dig_T2 s.dig_T3 adc_T).1,
           { s with t_fine := (T_formula_unbounded s.dig_T1 s.dig_T2 s.dig_T3 adc_T).2 }) := by
  have hadc2 : 0 ≤ adc_T ∧ adc_T ≤ 1048575 := by
    have : (2 : Int) ^ 20 - 1 = 1048575 := by norm_num
    omega
  have hsh : shr32 adc_T 4 = adc_T / 16 := by
    rw [shr32_eq_div]
    norm_num
  rw [hsh] at hd
  refine ⟨T_intermediates_in_range _ _ _ _ hadc2 hT1 hT2 hT3 hd, ?_⟩
  rw [compensate_T_eq_T_formula s adc_T hT1 (by omega) (by omega),
    T_formula_eq_unbounded _ _ _ _ hadc2 hT1 hT2 hT3 hd]

/-- Instance of `compensate_T_int32_no_overflow` at the calibration `dig_T1 = 27504`,
`dig_T2 = 16000`, `dig_T3 = -1000` and the raw value 519888. -/
theorem compensate_T_int32_no_overflow_witness :
    ((0 : Int) ≤ 519888 ∧ (519888 : Int) ≤ 2 ^ 20 - 1)
    ∧ (-46340 ≤ shr32 519888 4 - 27504 ∧ shr32 519888 4 - 27504 ≤ 46340)
    ∧ BME280_compensate_T_int32 { sampleDriver with dig_T2 := 16000 } 519888
        = ((T_formula_unbounded 27504 16000 (-1000) 519888).1,
           { sampleDriver with
              dig_T2 := 16000
              t_fine := (T_formula_unbounded 27504 16000 (-1000) 519888).2 })
    ∧ T_formula_unbounded 27504 16000 (-1000) 519888 = (1515, 77582) :=
  ⟨by decide, by decide,
   (compensate_T_int32_no_overflow { sampleDriver with dig_T2 := 16000 } 519888 (by decide)
      (by decide) (by decide) (by decide) (by decide)).2,
   by decide⟩

end BME280

namespace BME280

/-- Claim C21: for every burst `d[0..7]`, a successful `BME280_read` stores
`tADC = (d[3] << 12) | (d[4] << 4) | (d[5] >> 4)`, a value in `[0, 2^20 - 1]` that depends
on `d[5]` only through its high four bits, and `hADC = (d[6] << 8) | d[7]`, a value in
`[0, 65535]`; the bytes `d[0..2]` (and the state before the call) influence neither. -/
theorem BME280_read_raw_values (hw : Board) (s : Driver) (h : chipID_read hw = 0x60) :
    ((BME280_read hw s).2.1.tADC
        = ((((sensorData_read hw 3).val <<< 12) ||| ((sensorData_read hw 4).val <<< 4)
            ||| ((sensorData_read hw 5).val >>> 4) : Nat) : Int)
      ∧ 0 ≤ (BME280_read hw s).2.1.tADC ∧ (BME280_read hw s).2.1.tADC ≤ 2 ^ 20 - 1)
    ∧ ((BME280_read hw s).2.1.hADC
        = ((((sensorData_read hw 6).val <<< 8) ||| (sensorData_read hw 7).val : Nat) : Int)
      ∧ 0 ≤ (BME280_read hw s).2.1.hADC ∧ (BME280_read hw s).2.1.hADC ≤ 65535)
    ∧ (∀ (hw2 : Board) (s2 : Driver), chipID_read hw2 = 0x60 →
        sensorData_read hw2 3 = sensorData_read hw 3 →
        sensorData_read hw2 4 = sensorData_read hw 4 →
        (sensorData_read hw2 5).val >>> 4 = (sensorData_read hw 5).val >>> 4 →
        sensorData_read hw2 6 = sensorData_read hw 6 →
        sensorData_read hw2 7 = sensorData_read hw 7 →
        (BME280_read hw2 s2).2.1.tADC = (BME280_read hw s).2.1.tADC
        ∧ (BME280_read hw2 s2).2.1.hADC = (BME280_read hw s).2.1.hADC) := by
  have ht := tADC_decode_lt (sensorData_read hw 3) (sensorData_read hw 4) (sensorData_read hw 5)
  have hh := hADC_decode_lt (sensorData_read hw 6) (sensorData_read hw 7)
  have ht2 : (2 : Int) ^ 20 - 1 = 1048575 := by norm_num
  refine ⟨?_, ?_, ?_⟩
  · rw [BME280_read_of_ready hw s h]
    refine ⟨rfl, ?_, ?_⟩
    · exact Int.ofNat_nonneg _
    · show ((_ : Nat) : Int) ≤ _
      omega
  · rw [BME280_read_of_ready hw s h]
    refine ⟨rfl, ?_, ?_⟩
    · exact Int.ofNat_nonneg _
    · show ((_ : Nat) : Int) ≤ _
      omega
  · intro hw2 s2 h2 e3 e4 e5 e6 e7
    rw [BME280_read_of_ready hw s h, BME280_read_of_ready hw2 s2 h2]
    simp only [e3, e4, e5, e6, e7, and_self]

/-- Instance of `BME280_read_raw_values` on the sample board, and on a second board whose
burst differs in bytes 0..2 and in the low four bits of byte 5: both give `tADC = 519888`
and `hADC = 30000`. -/
theorem BME280_read_raw_values_witness :
    chipID_read (sampleBoard 0x60 sampleBurst) = 0x60
    ∧ (0 ≤ (BME280_read (sampleBoard 0x60 sampleBurst) sampleDriver).2.1.tADC
        ∧ (BME280_read (sampleBoard 0x60 sampleBurst) sampleDriver).2.1.tADC ≤ 2 ^ 20 - 1)
    ∧ (BME280_read (sampleBoard 0x60 [0xFF, 0xEE, 0xDD, 0x7E, 0xED, 0x03, 0x75, 0x30])
          sampleDriver).2.1.tADC = 519888
    ∧ (BME280_read (sampleBoard 0x60 [0xFF, 0xEE, 0xDD, 0x7E, 0xED, 0x03, 0x75, 0x30])
          sampleDriver).2.1.hADC = 30000 :=
  ⟨by decide,
   (BME280_read_raw_values (sampleBoard 0x60 sampleBurst) sampleDriver (by decide)).1.2,
   by decide, by decide⟩

end BME280

namespace Leds

/-- Claim C23, what the code does instead: the calls of `led_to_mask` made by `leds_turn_on`
and `leds_turn_off` sit inside the range guard, so their shift amount `led - 1` is in
`0..15`; `led_is_turned_on` calls `led_to_mask` ahead of its guard, for every `led`: with
`led = -1` the shift amount is -2 (an undefined shift) and with `led = 17` it is 16, so the
bound does not hold for its calls. -/
theorem led_is_turned_on_mask_shift_unguarded :
    (∀ led : Int, ∀ a ∈ leds_turn_on_mask_calls led, 0 ≤ shift_amount a ∧ shift_amount a ≤ 15)
    ∧ (∀ led : Int, ∀ a ∈ leds_turn_off_mask_calls led,
        0 ≤ shift_amount a ∧ shift_amount a ≤ 15)
    ∧ (led_is_turned_on_mask_calls (-1) = [-1] ∧ shift_amount (-1) = -2
        ∧ led_to_mask (-1) = none)
    ∧ (led_is_turned_on_mask_calls 17 = [17] ∧ shift_amount 17 = 16
        ∧ led_to_mask 17 = some 0)
    ∧ ¬ (∀ led : Int, ∀ a ∈ led_is_turned_on_mask_calls led,
        0 ≤ shift_amount a ∧ shift_amount a ≤ 15) := by
  have guarded : ∀ led a : Int, a ∈ (if led ≥ 1 ∧ led ≤ 16 then [led] else []) →
      0 ≤ shift_amount a ∧ shift_amount a ≤ 15 := by
    intro led a ha
    by_cases hg : led ≥ 1 ∧ led ≤ 16
    · rw [if_pos hg, List.mem_singleton] at ha
      subst ha
      simp only [shift_amount, LED_OFFSET]
      omega
    · rw [if_neg hg] at ha
      cases ha
  refine ⟨fun led a ha => guarded led a ha, fun led a ha => guarded led a ha,
    ⟨rfl, by decide, by decide⟩, ⟨rfl, by decide, by decide⟩, ?_⟩
  intro hall
  have h := (hall 17 17 (List.mem_singleton.2 rfl)).2
  revert h
  decide

end Leds
